import Mathlib

/-!
Verification development for the `sinara_kasli` LiteX board target
(`litex_boards/targets/sinara_kasli.py`).

The file below is a shallow embedding of the target's configuration logic:

* `mkCRG` embeds `_CRG.__init__` (lines 36-75 of the source): the clock-domain
  attributes created, the `IBUFDS_GTE2` input buffer instance, the period
  constraint registered on the `clk125_gtp` pins, the `S7MMCM` PLL with its
  registered reference clock and requested clock outputs, the conditional
  `S7IDELAYCTRL`, and the conditional `QPLL` with its `QPLLSettings`.
* `mkBaseSoC` embeds `BaseSoC.__init__` (lines 80-140): the derived
  `with_dram` / `with_qpll` flags, the `_CRG` construction, the DDR3 SDRAM
  block, the unconditional Ethernet PHY construction (which dereferences
  `self.crg.qpll` and therefore raises `AttributeError` when the `_CRG` was
  built without a QPLL), the conditional Ethernet/Etherbone attachment, and
  the `NotImplementedError` raised for SPI flash.  Python exceptions are
  embedded as `Except.error`.
* `main` embeds the post-argument-parsing body of `main` (lines 158-187):
  the `assert not (with_etherbone and eth_dynamic_ip)` check, the `BaseSoC`
  construction, and the build/load/flash actions, returning the trace of
  externally visible actions performed together with the terminal error, if
  any.

Frequencies and phases are embedded as rationals (`ℚ`); the Python floats
involved (`125e6`, `125e6/2`, `200e6`, `8.`, `4*sys_clk_freq`, phase `90`)
are all exactly representable.  The `QPLL` and `A7_1000BASEX` classes live in
the external `liteeth` package; only the parameters the target passes to them
are recorded here.
-/

/-- Names of the clock-domain attributes created by `_CRG.__init__`
(`cd_sys`, and with DRAM also `cd_sys4x`, `cd_sys4x_dqs`, `cd_idelay`). -/
inductive DomainName
  | sys
  | sys4x
  | sys4x_dqs
  | idelay
  deriving DecidableEq, BEq, Repr

/-- The two internal clock signals produced by the `IBUFDS_GTE2` input
buffer: `self.clk125_buf` (full rate) and `self.clk125_div2` (divided by
two). -/
inductive ClkSig
  | clk125_buf
  | clk125_div2
  deriving DecidableEq, BEq, Repr

/-- The pin groups the target requests from the platform. -/
inductive Pads
  | clk125_gtp
  | ddram
  | sfp0
  deriving DecidableEq, BEq, Repr

/-- The `Instance("IBUFDS_GTE2", ...)` added to `self.specials`
(source lines 51-55): `i_CEB=0`, output `o_O` and `o_ODIV2`. -/
structure IBufDSGTE2 where
  ceb : Nat
  o : ClkSig
  odiv2 : ClkSig
  deriving DecidableEq, Repr

/-- One `pll.create_clkout(cd, freq, phase)` request. -/
structure Clkout where
  domain : DomainName
  freq : ℚ
  phase : ℚ
  deriving DecidableEq, Repr

/-- The `S7MMCM(speedgrade=-3)` synthesizer together with its
`register_clkin` reference and its `create_clkout` requests
(source lines 58-64). -/
structure S7MMCM where
  speedgrade : Int
  refclk : ClkSig
  refclk_freq : ℚ
  clkouts : List Clkout
  deriving DecidableEq, Repr

/-- The `QPLLSettings(refclksel=0b001, fbdiv=4, fbdiv_45=5, refclk_div=1)`
record (source lines 69-73). -/
structure QPLLSettings where
  refclksel : Nat
  fbdiv : Nat
  fbdiv_45 : Nat
  refclk_div : Nat
  deriving DecidableEq, Repr

/-- The `QPLL(self.clk125_buf, qpll_settings)` instance (source line 74).
The `QPLL` class itself is external (`liteeth.phy.a7_gtp`); the target only
chooses its reference clock signal and its settings. -/
structure QPLL where
  refclk : ClkSig
  settings : QPLLSettings
  deriving DecidableEq, Repr

/-- Result of `_CRG.__init__` (source lines 36-75): the clock-domain
attributes created, the input buffer, the period constraint added on the
`clk125_gtp` input, the main PLL, the optional `S7IDELAYCTRL` (with the
domain it consumes) and the optional `QPLL`. -/
structure CRG where
  domains : List DomainName
  clk125_period_constraint : ℚ
  ibufds : IBufDSGTE2
  pll : S7MMCM
  idelayctrl : Option DomainName
  qpll : Option QPLL
  deriving DecidableEq, Repr

/-- `_CRG.__init__(platform, sys_clk_freq, with_dram, with_qpll)`,
source lines 36-75. -/
def mkCRG (sys_clk_freq : ℚ) (with_dram : Bool) (with_qpll : Bool) : CRG :=
  { domains := [DomainName.sys] ++
      (if with_dram then [DomainName.sys4x, DomainName.sys4x_dqs, DomainName.idelay] else []),
    clk125_period_constraint := 8,
    ibufds := { ceb := 0, o := ClkSig.clk125_buf, odiv2 := ClkSig.clk125_div2 },
    pll := { speedgrade := -3,
             refclk := ClkSig.clk125_div2,
             refclk_freq := 125000000 / 2,
             clkouts := [⟨DomainName.sys, sys_clk_freq, 0⟩] ++
               (if with_dram then
                 [⟨DomainName.sys4x, 4 * sys_clk_freq, 0⟩,
                  ⟨DomainName.sys4x_dqs, 4 * sys_clk_freq, 90⟩,
                  ⟨DomainName.idelay, 200000000, 0⟩]
                else []) },
    idelayctrl := if with_dram then some DomainName.idelay else none,
    qpll := if with_qpll then
        some { refclk := ClkSig.clk125_buf,
               settings := { refclksel := 1, fbdiv := 4, fbdiv_45 := 5, refclk_div := 1 } }
      else none }

/-- Look up the `create_clkout` request for a given clock domain. -/
def findClkout (crg : CRG) (d : DomainName) : Option Clkout :=
  crg.pll.clkouts.find? (fun o => o.domain == d)

/-- Keyword/positional arguments of `BaseSoC.__init__` (source lines 81-90),
with the source's defaults.  `integrated_main_ram_size` and `l2_size` arrive
through `**kwargs` (read via `kwargs.get` on lines 94 and 119, defaults 0 and
8192). -/
structure BaseSoCArgs where
  hw_rev : String := "v2.0"
  toolchain : String := "vivado"
  sys_clk_freq : ℚ := 125000000
  with_xadc : Bool := false
  with_dna : Bool := false
  with_ethernet : Bool := false
  with_etherbone : Bool := false
  eth_ip : String := "192.168.1.70"
  eth_dynamic_ip : Bool := false
  with_spi_flash : Bool := false
  with_qpll : Bool := true
  integrated_main_ram_size : Nat := 0
  l2_size : Nat := 8192
  deriving DecidableEq, Repr

/-- Python exceptions that can escape `BaseSoC.__init__`. -/
inductive SoCError
  | attributeError (attr : String)
  | notImplementedError (msg : String)
  deriving DecidableEq, Repr

/-- Attribute name of the missing `qpll` when `_CRG` was built with
`with_qpll=False`. -/
def qpllAttr : String := "qpll"

/-- Message of the `NotImplementedError` raised on line 137. -/
def spiFlashMsg : String := "SPI Flash not supported on Sinara Kasli."

/-- Message of the `NotImplementedError` raised on line 185. -/
def flashMsg : String := "Flash not supported on Sinara Kasli."

/-- The `A7_1000BASEX` PHY construction parameters (source lines 124-129):
channel 0 of the CRG's QPLL, the first SFP pin group, the system clock
frequency, `with_csr=False`. -/
structure EthPhy where
  qpll : QPLL
  qpll_channel_index : Nat
  data_pads : Pads
  sys_clk_freq : ℚ
  with_csr : Bool
  deriving DecidableEq, Repr

/-- Parameters of `self.add_ethernet(phy=self.ethphy, dynamic_ip=...)`
(source line 131). -/
structure EthernetCfg where
  dynamic_ip : Bool
  deriving DecidableEq, Repr

/-- Parameters of `self.add_etherbone(phy=..., ip_address=eth_ip,
arp_entries=4)` (source line 133). -/
structure EtherboneCfg where
  ip_address : String
  arp_entries : Nat
  deriving DecidableEq, Repr

/-- Parameters of the DDR3 SDRAM block (source lines 111-120). -/
structure SdramCfg where
  nphases : Nat
  l2_cache_size : Nat
  deriving DecidableEq, Repr

/-- A successfully constructed `BaseSoC` (the attributes set by
`BaseSoC.__init__` that the target itself decides). -/
structure BaseSoC where
  crg : CRG
  with_dram : Bool
  sdram : Option SdramCfg
  xadc : Bool
  dna : Bool
  ethphy : EthPhy
  ethernet : Option EthernetCfg
  etherbone : Option EtherboneCfg
  deriving DecidableEq, Repr

/-- Source line 94: `with_dram = (kwargs.get("integrated_main_ram_size", 0) == 0)`. -/
def socWithDram (a : BaseSoCArgs) : Bool :=
  a.integrated_main_ram_size == 0

/-- Source line 95: `with_qpll = with_qpll or with_ethernet or with_etherbone`. -/
def socWithQpll (a : BaseSoCArgs) : Bool :=
  a.with_qpll || a.with_ethernet || a.with_etherbone

/-- Source line 96: `self.crg = _CRG(platform, sys_clk_freq, with_dram, with_qpll)`. -/
def socCRG (a : BaseSoCArgs) : CRG :=
  mkCRG a.sys_clk_freq (socWithDram a) (socWithQpll a)

/-- `BaseSoC.__init__` (source lines 80-140).  The Ethernet PHY construction
on lines 124-129 is unguarded and reads `self.crg.qpll.channels[0]`; when the
`_CRG` was built without a QPLL this raises `AttributeError` and no SoC is
produced.  The SPI-flash branch raises `NotImplementedError` before the dead
`add_spi_flash` call on line 140. -/
def mkBaseSoC (a : BaseSoCArgs) : Except SoCError BaseSoC :=
  let with_dram := socWithDram a
  let crg := socCRG a
  match crg.qpll with
  | none => Except.error (SoCError.attributeError qpllAttr)
  | some q =>
    let ethphy : EthPhy :=
      { qpll := q, qpll_channel_index := 0, data_pads := Pads.sfp0,
        sys_clk_freq := a.sys_clk_freq, with_csr := false }
    if a.with_spi_flash then
      Except.error (SoCError.notImplementedError spiFlashMsg)
    else
      Except.ok
        { crg := crg,
          with_dram := with_dram,
          sdram := if with_dram then some { nphases := 4, l2_cache_size := a.l2_size } else none,
          xadc := a.with_xadc,
          dna := a.with_dna,
          ethphy := ethphy,
          ethernet := if a.with_ethernet then some { dynamic_ip := a.eth_dynamic_ip } else none,
          etherbone := if a.with_etherbone then
              some { ip_address := a.eth_ip, arp_entries := 4 }
            else none }

/-- `True` exactly when the result is a `NotImplementedError`. -/
def isNotImplementedError : Except SoCError BaseSoC → Bool
  | Except.error (SoCError.notImplementedError _) => true
  | _ => false

/-- `True` exactly when `BaseSoC` construction succeeded. -/
def isOk : Except SoCError BaseSoC → Bool
  | Except.ok _ => true
  | _ => false

/-- The command-line arguments of `main` after parsing (source lines
147-158), with the parser's defaults.  `--with-ethernet`/`--with-etherbone`
live in a mutually exclusive argparse group; `integrated_main_ram_size` and
`l2_size` arrive through `parser.soc_argdict`. -/
structure MainArgs where
  flash : Bool := false
  hw_rev : String := "v2.0"
  toolchain : String := "vivado"
  sys_clk_freq : ℚ := 125000000
  with_xadc : Bool := false
  with_dna : Bool := false
  with_ethernet : Bool := false
  with_etherbone : Bool := false
  eth_ip : String := "192.168.1.50"
  eth_dynamic_ip : Bool := false
  with_spi_flash : Bool := false
  build : Bool := false
  load : Bool := false
  integrated_main_ram_size : Nat := 0
  l2_size : Nat := 8192
  deriving DecidableEq, Repr

/-- The `BaseSoC(...)` call of `main` (source lines 162-174): every parsed
flag is forwarded; `with_qpll` is NOT forwarded, so it keeps its default. -/
def argsToSoC (args : MainArgs) : BaseSoCArgs :=
  { hw_rev := args.hw_rev,
    toolchain := args.toolchain,
    sys_clk_freq := args.sys_clk_freq,
    with_xadc := args.with_xadc,
    with_dna := args.with_dna,
    with_ethernet := args.with_ethernet,
    with_etherbone := args.with_etherbone,
    eth_ip := args.eth_ip,
    eth_dynamic_ip := args.eth_dynamic_ip,
    with_spi_flash := args.with_spi_flash,
    integrated_main_ram_size := args.integrated_main_ram_size,
    l2_size := args.l2_size }

/-- Externally visible steps `main` performs after parsing. -/
inductive MainAction
  | constructSoC
  | buildBitstream
  | createProgrammer
  | loadBitstream
  | flashBitstream
  deriving DecidableEq, Repr

/-- Errors that can escape `main`. -/
inductive MainError
  | assertionError
  | socError (e : SoCError)
  | notImplementedError (msg : String)
  deriving DecidableEq, Repr

/-- Body of `main` after argument parsing (source lines 160-187): the
`assert not (args.with_etherbone and args.eth_dynamic_ip)` on line 160 runs
before anything is constructed; then `BaseSoC` is constructed; then the
build/load actions run; finally `--flash` raises `NotImplementedError` on
line 185, before the flash branch's `create_programmer`/`flash` calls on
lines 186-187 (which are therefore never reached).  Returns the trace of
actions performed together with the terminal error, if any. -/
def mainRun (args : MainArgs) : List MainAction × Option MainError :=
  if args.with_etherbone && args.eth_dynamic_ip then
    ([], some MainError.assertionError)
  else
    match mkBaseSoC (argsToSoC args) with
    | Except.error e => ([], some (MainError.socError e))
    | Except.ok _ =>
      let acts := [MainAction.constructSoC]
        ++ (if args.build then [MainAction.buildBitstream] else [])
        ++ (if args.load then [MainAction.createProgrammer, MainAction.loadBitstream] else [])
      if args.flash then
        (acts, some (MainError.notImplementedError flashMsg))
      else
        (acts, none)

-- Theorems ----------------------------------------------------------------

/-- C1: the effective `with_qpll` flag equals the logical OR of the explicit
request, `with_ethernet` and `with_etherbone`; whenever Ethernet or
Etherbone is requested the QPLL is instantiated in the `_CRG`, even when the
explicit flag is false. -/
theorem with_qpll_or_policy (a : BaseSoCArgs) :
    (socCRG a).qpll.isSome = (a.with_qpll || a.with_ethernet || a.with_etherbone) ∧
    ((a.with_ethernet || a.with_etherbone) = true → (socCRG a).qpll.isSome = true) := by
  have h1 : (socCRG a).qpll.isSome = (a.with_qpll || a.with_ethernet || a.with_etherbone) := by
    simp only [socCRG, socWithQpll, mkCRG]
    split <;> simp_all
  refine ⟨h1, fun h => ?_⟩
  rw [h1]
  simp only [Bool.or_eq_true] at h ⊢
  tauto

/-- C1 witness: with `with_qpll := false` but `with_ethernet := true`, the
QPLL is instantiated. -/
theorem with_qpll_or_policy_witness :
    (({ with_qpll := false, with_ethernet := true } : BaseSoCArgs).with_ethernet ||
      ({ with_qpll := false, with_ethernet := true } : BaseSoCArgs).with_etherbone) = true ∧
    (socCRG { with_qpll := false, with_ethernet := true }).qpll.isSome = true :=
  ⟨rfl, (with_qpll_or_policy { with_qpll := false, with_ethernet := true }).2 rfl⟩

/-- C2 counterexample: for the configuration `with_dram=true` (default
`integrated_main_ram_size = 0`), `with_qpll=false`, `ethernet=false`,
`etherbone=false`, `BaseSoC` construction does NOT succeed (the unguarded
Ethernet-PHY construction dereferences the absent `crg.qpll`). -/
theorem basesoc_qpll_false_cex :
    isOk (mkBaseSoC { with_qpll := false }) = false := rfl

/-- C2 amended: for that configuration the `_CRG` does yield exactly the
clock-domain set `{sys, sys4x, sys4x_dqs, idelay}` with no transceiver PLL
instantiated, but `BaseSoC` construction itself fails with an
`AttributeError` on the missing `qpll` attribute. -/
theorem basesoc_qpll_false_amended :
    (socCRG { with_qpll := false }).domains =
      [DomainName.sys, DomainName.sys4x, DomainName.sys4x_dqs, DomainName.idelay] ∧
    (socCRG { with_qpll := false }).qpll = none ∧
    (socCRG { with_qpll := false }).idelayctrl = some DomainName.idelay ∧
    mkBaseSoC { with_qpll := false } = Except.error (SoCError.attributeError qpllAttr) :=
  ⟨rfl, rfl, rfl, rfl⟩

/-- C10: the input buffer drives `clk125_buf` (full rate) and `clk125_div2`
(divided by two); an 8 ns period constraint is registered on the input; the
`S7MMCM` consumes the divided-by-two clock registered at `125e6/2`; the
QPLL, when instantiated, consumes the full-rate buffered clock with the
Kasli `QPLLSettings`. -/
theorem crg_reference_clock_wiring (f : ℚ) (wd wq : Bool) :
    (mkCRG f wd wq).clk125_period_constraint = 8 ∧
    (mkCRG f wd wq).ibufds = { ceb := 0, o := ClkSig.clk125_buf, odiv2 := ClkSig.clk125_div2 } ∧
    (mkCRG f wd wq).pll.refclk = ClkSig.clk125_div2 ∧
    (mkCRG f wd wq).pll.refclk_freq = 125000000 / 2 ∧
    (mkCRG f wd true).qpll =
      some { refclk := ClkSig.clk125_buf,
             settings := { refclksel := 1, fbdiv := 4, fbdiv_45 := 5, refclk_div := 1 } } :=
  ⟨rfl, rfl, rfl, rfl, rfl⟩

-- Helper lemmas -----------------------------------------------------------

/-- The QPLL instance the `_CRG` creates when `with_qpll` holds. -/
def kasliQPLL : QPLL :=
  { refclk := ClkSig.clk125_buf,
    settings := { refclksel := 1, fbdiv := 4, fbdiv_45 := 5, refclk_div := 1 } }

/-- The `BaseSoC` record produced when construction succeeds. -/
def mkSoCOk (a : BaseSoCArgs) : BaseSoC :=
  { crg := socCRG a,
    with_dram := socWithDram a,
    sdram := if socWithDram a then some { nphases := 4, l2_cache_size := a.l2_size } else none,
    xadc := a.with_xadc,
    dna := a.with_dna,
    ethphy := { qpll := kasliQPLL, qpll_channel_index := 0, data_pads := Pads.sfp0,
                sys_clk_freq := a.sys_clk_freq, with_csr := false },
    ethernet := if a.with_ethernet then some { dynamic_ip := a.eth_dynamic_ip } else none,
    etherbone := if a.with_etherbone then some { ip_address := a.eth_ip, arp_entries := 4 }
      else none }

theorem socCRG_qpll_eq (a : BaseSoCArgs) :
    (socCRG a).qpll = if socWithQpll a then some kasliQPLL else none := rfl

theorem mkBaseSoC_noQpll (a : BaseSoCArgs) (hb : socWithQpll a = false) :
    mkBaseSoC a = Except.error (SoCError.attributeError qpllAttr) := by
  have hq : (socCRG a).qpll = none := by rw [socCRG_qpll_eq, hb]; rfl
  unfold mkBaseSoC
  simp only [hq]

theorem mkBaseSoC_spi (a : BaseSoCArgs) (hb : socWithQpll a = true)
    (hs : a.with_spi_flash = true) :
    mkBaseSoC a = Except.error (SoCError.notImplementedError spiFlashMsg) := by
  have hq : (socCRG a).qpll = some kasliQPLL := by rw [socCRG_qpll_eq, hb]; rfl
  unfold mkBaseSoC
  simp only [hq, hs]
  rfl

theorem mkBaseSoC_ok (a : BaseSoCArgs) (hb : socWithQpll a = true)
    (hs : a.with_spi_flash = false) :
    mkBaseSoC a = Except.ok (mkSoCOk a) := by
  have hq : (socCRG a).qpll = some kasliQPLL := by rw [socCRG_qpll_eq, hb]; rfl
  unfold mkBaseSoC
  simp only [hq, hs]
  rfl

-- Claim theorems (continued) ----------------------------------------------

/-- C3: for every `BaseSoC` construction that completes, the Ethernet PHY is
constructed unconditionally — bound to QPLL channel 0 and the first SFP pin
group, with `with_csr=False` — outside any `with_ethernet`/`with_etherbone`
guard; only the attachment of the Ethernet and Etherbone stacks is
conditional on those flags. -/
theorem ethphy_unconditional (a : BaseSoCArgs)
    (hq : (a.with_qpll || a.with_ethernet || a.with_etherbone) = true)
    (hs : a.with_spi_flash = false) :
    ∃ s, mkBaseSoC a = Except.ok s ∧
      s.ethphy.qpll = kasliQPLL ∧
      s.ethphy.qpll_channel_index = 0 ∧
      s.ethphy.data_pads = Pads.sfp0 ∧
      s.ethphy.sys_clk_freq = a.sys_clk_freq ∧
      s.ethphy.with_csr = false ∧
      s.ethernet.isSome = a.with_ethernet ∧
      s.etherbone.isSome = a.with_etherbone := by
  refine ⟨mkSoCOk a, mkBaseSoC_ok a hq hs, rfl, rfl, rfl, rfl, rfl, ?_, ?_⟩
  · simp only [mkSoCOk]
    split <;> simp_all
  · simp only [mkSoCOk]
    split <;> simp_all

/-- C3 witness: with both feature flags false (and the default
`with_qpll=True`) the PHY is still constructed and neither stack is
attached. -/
theorem ethphy_unconditional_witness :
    mkBaseSoC { with_ethernet := false, with_etherbone := false } =
      Except.ok (mkSoCOk { with_ethernet := false, with_etherbone := false }) ∧
    (mkSoCOk { with_ethernet := false, with_etherbone := false }).ethphy.qpll_channel_index = 0 ∧
    (mkSoCOk { with_ethernet := false, with_etherbone := false }).ethernet = none ∧
    (mkSoCOk { with_ethernet := false, with_etherbone := false }).etherbone = none := by
  obtain ⟨s, hok, -, hch, -, -, -, -, -⟩ :=
    ethphy_unconditional { with_ethernet := false, with_etherbone := false } rfl rfl
  have hs : s = mkSoCOk { with_ethernet := false, with_etherbone := false } := by
    have := hok.symm.trans (mkBaseSoC_ok { with_ethernet := false, with_etherbone := false } rfl rfl)
    injection this
  subst hs
  exact ⟨hok, hch, rfl, rfl⟩

/-- C4: successful `BaseSoC` construction requires the effective
`with_qpll` disjunction; when `with_qpll`, `with_ethernet` and
`with_etherbone` are all false the `_CRG` has no `qpll` and construction
fails with an `AttributeError` instead of producing a SoC without a
transceiver PLL. -/
theorem construction_requires_qpll (a : BaseSoCArgs) :
    ((a.with_qpll || a.with_ethernet || a.with_etherbone) = false →
      (socCRG a).qpll = none ∧
      mkBaseSoC a = Except.error (SoCError.attributeError qpllAttr)) ∧
    (∀ s, mkBaseSoC a = Except.ok s →
      (a.with_qpll || a.with_ethernet || a.with_etherbone) = true) := by
  constructor
  · intro h
    have hb : socWithQpll a = false := h
    exact ⟨by rw [socCRG_qpll_eq, hb]; rfl, mkBaseSoC_noQpll a hb⟩
  · intro s hok
    cases hb : socWithQpll a
    · rw [mkBaseSoC_noQpll a hb] at hok
      simp at hok
    · exact hb

/-- C4 witness: at the all-false configuration, construction fails with the
`AttributeError` on `qpll`. -/
theorem construction_requires_qpll_witness :
    (socCRG { with_qpll := false, with_ethernet := false, with_etherbone := false }).qpll = none ∧
    mkBaseSoC { with_qpll := false, with_ethernet := false, with_etherbone := false } =
      Except.error (SoCError.attributeError qpllAttr) :=
  (construction_requires_qpll
    { with_qpll := false, with_ethernet := false, with_etherbone := false }).1 rfl

/-- C5: `with_dram` holds exactly when `integrated_main_ram_size == 0`, and
whenever `with_dram` is false the `_CRG` creates none of the `sys4x`,
`sys4x_dqs`, `idelay` domains, requests no clock outputs for them, and
instantiates no `S7IDELAYCTRL`. -/
theorem with_dram_policy :
    (∀ a s, mkBaseSoC a = Except.ok s →
      s.with_dram = (a.integrated_main_ram_size == 0) ∧
      (s.with_dram = false →
        s.crg.domains = [DomainName.sys] ∧
        s.crg.idelayctrl = none ∧
        s.crg.pll.clkouts.map Clkout.domain = [DomainName.sys])) ∧
    (∀ (f : ℚ) (q : Bool),
      (mkCRG f false q).domains = [DomainName.sys] ∧
      (mkCRG f false q).idelayctrl = none ∧
      (mkCRG f false q).pll.clkouts.map Clkout.domain = [DomainName.sys]) := by
  constructor
  · intro a s hok
    cases hb : socWithQpll a
    · rw [mkBaseSoC_noQpll a hb] at hok
      simp at hok
    · cases hsf : a.with_spi_flash
      · rw [mkBaseSoC_ok a hb hsf] at hok
        injection hok with h
        subst h
        refine ⟨rfl, fun hwd => ?_⟩
        have hwd' : socWithDram a = false := hwd
        refine ⟨?_, ?_, ?_⟩ <;> simp [mkSoCOk, socCRG, mkCRG, hwd']
      · rw [mkBaseSoC_spi a hb hsf] at hok
        simp at hok
  · intro f q
    exact ⟨rfl, rfl, rfl⟩

/-- C5 witness: with a pre-integrated main RAM of size 8192, the constructed
SoC has `with_dram = false` and only the `sys` domain. -/
theorem with_dram_policy_witness :
    mkBaseSoC { integrated_main_ram_size := 8192 } =
      Except.ok (mkSoCOk { integrated_main_ram_size := 8192 }) ∧
    (mkSoCOk { integrated_main_ram_size := 8192 }).with_dram =
      (({ integrated_main_ram_size := 8192 } : BaseSoCArgs).integrated_main_ram_size == 0) ∧
    (mkSoCOk { integrated_main_ram_size := 8192 }).crg.domains = [DomainName.sys] := by
  have h := with_dram_policy.1 { integrated_main_ram_size := 8192 }
    (mkSoCOk { integrated_main_ram_size := 8192 }) (mkBaseSoC_ok _ rfl rfl)
  exact ⟨mkBaseSoC_ok _ rfl rfl, h.1, (h.2 rfl).1⟩

/-- C6: with DRAM enabled, the `sys4x` and `sys4x_dqs` clock outputs are
requested at the identical frequency `4 * sys_clk_freq` and differ in phase
by exactly 90 degrees (`sys4x` at 0, `sys4x_dqs` at 90). -/
theorem sys4x_dqs_phase (f : ℚ) (q : Bool) (c1 c2 : Clkout)
    (h1 : findClkout (mkCRG f true q) DomainName.sys4x = some c1)
    (h2 : findClkout (mkCRG f true q) DomainName.sys4x_dqs = some c2) :
    c1.freq = 4 * f ∧ c2.freq = 4 * f ∧ c1.freq = c2.freq ∧
    c1.phase = 0 ∧ c2.phase = 90 ∧ c2.phase - c1.phase = 90 := by
  have e1 : findClkout (mkCRG f true q) DomainName.sys4x =
      some ⟨DomainName.sys4x, 4 * f, 0⟩ := rfl
  have e2 : findClkout (mkCRG f true q) DomainName.sys4x_dqs =
      some ⟨DomainName.sys4x_dqs, 4 * f, 90⟩ := rfl
  injection e1.symm.trans h1 with hc1
  injection e2.symm.trans h2 with hc2
  subst hc1
  subst hc2
  refine ⟨rfl, rfl, rfl, rfl, rfl, ?_⟩
  norm_num

/-- C6 witness: at the default 125 MHz system clock, both outputs are found
and agree in frequency. -/
theorem sys4x_dqs_phase_witness :
    findClkout (mkCRG 125000000 true false) DomainName.sys4x =
      some ⟨DomainName.sys4x, 4 * 125000000, 0⟩ ∧
    findClkout (mkCRG 125000000 true false) DomainName.sys4x_dqs =
      some ⟨DomainName.sys4x_dqs, 4 * 125000000, 90⟩ ∧
    (⟨DomainName.sys4x, 4 * 125000000, 0⟩ : Clkout).freq =
      (⟨DomainName.sys4x_dqs, 4 * 125000000, 90⟩ : Clkout).freq :=
  ⟨rfl, rfl, (sys4x_dqs_phase 125000000 false _ _ rfl rfl).2.2.1⟩

/-- C7: requesting Etherbone together with dynamic IP is rejected by the
assertion before anything is constructed (empty action trace, assertion
error); with Etherbone set and dynamic IP unset, this check never fires. -/
theorem etherbone_dynamic_ip_assert (args : MainArgs) :
    (args.with_etherbone = true → args.eth_dynamic_ip = true →
      mainRun args = ([], some MainError.assertionError)) ∧
    (args.with_etherbone = true → args.eth_dynamic_ip = false →
      (mainRun args).2 ≠ some MainError.assertionError) := by
  constructor
  · intro he hd
    simp [mainRun, he, hd]
  · intro he hd
    have hcond : (args.with_etherbone && args.eth_dynamic_ip) = false := by
      rw [he, hd, Bool.and_false]
    cases hm : mkBaseSoC (argsToSoC args) <;>
      cases hf : args.flash <;>
        simp [mainRun, hcond, hm, hf]

/-- C7 witness: both flags set is rejected with no actions performed; only
Etherbone set passes this check. -/
theorem etherbone_dynamic_ip_assert_witness :
    mainRun { with_etherbone := true, eth_dynamic_ip := true } =
      ([], some MainError.assertionError) ∧
    (mainRun { with_etherbone := true }).2 ≠ some MainError.assertionError :=
  ⟨(etherbone_dynamic_ip_assert { with_etherbone := true, eth_dynamic_ip := true }).1 rfl rfl,
   (etherbone_dynamic_ip_assert { with_etherbone := true }).2 rfl rfl⟩

/-- C8 counterexample: with `with_spi_flash := true` but the effective
`with_qpll` disjunction false, construction raises the `AttributeError` on
the missing `qpll` attribute, not a `NotImplementedError`. -/
theorem spi_flash_error_cex :
    mkBaseSoC { with_spi_flash := true, with_qpll := false } =
      Except.error (SoCError.attributeError qpllAttr) ∧
    isNotImplementedError (mkBaseSoC { with_spi_flash := true, with_qpll := false }) = false :=
  ⟨rfl, rfl⟩

/-- C8 amended: every `BaseSoC` construction with `with_spi_flash = true`
that reaches the SPI-flash step (i.e. in which the effective `with_qpll`
disjunction holds) raises `NotImplementedError`; in every case no SPI flash
logic is instantiated — construction never succeeds. -/
theorem spi_flash_amended (a : BaseSoCArgs) (hs : a.with_spi_flash = true) :
    ((a.with_qpll || a.with_ethernet || a.with_etherbone) = true →
      mkBaseSoC a = Except.error (SoCError.notImplementedError spiFlashMsg)) ∧
    (∀ s, mkBaseSoC a ≠ Except.ok s) := by
  constructor
  · intro hb
    exact mkBaseSoC_spi a hb hs
  · intro s hok
    cases hb : socWithQpll a
    · rw [mkBaseSoC_noQpll a hb] at hok
      simp at hok
    · rw [mkBaseSoC_spi a hb hs] at hok
      simp at hok

/-- C8 witness: with the default `with_qpll=True` and `with_spi_flash=true`,
construction raises the SPI-flash `NotImplementedError`. -/
theorem spi_flash_amended_witness :
    mkBaseSoC { with_spi_flash := true } =
      Except.error (SoCError.notImplementedError spiFlashMsg) :=
  (spi_flash_amended { with_spi_flash := true } rfl).1 rfl

/-- C9 counterexample: with both `--load` and `--flash` set, a programmer IS
created (and invoked for loading) before the flash `NotImplementedError` is
raised, refuting "raised before any programmer is created or invoked". -/
theorem flash_programmer_cex :
    MainAction.createProgrammer ∈ (mainRun { load := true, flash := true }).1 ∧
    (mainRun { load := true, flash := true }).2 =
      some (MainError.notImplementedError flashMsg) := by
  constructor
  · decide
  · rfl

/-- C9 amended: every invocation with `--flash` that is not rejected earlier
(by the Etherbone/dynamic-IP assertion or by SPI-flash construction failure)
raises the flash `NotImplementedError`, and the flash branch's
`create_programmer`/`flash` calls after the raise are never reached — no
flash action ever appears in the trace, and no programmer at all is created
unless `--load` requested one beforehand. -/
theorem flash_amended (args : MainArgs)
    (hf : args.flash = true)
    (ha : (args.with_etherbone && args.eth_dynamic_ip) = false)
    (hs : args.with_spi_flash = false) :
    (mainRun args).2 = some (MainError.notImplementedError flashMsg) ∧
    MainAction.flashBitstream ∉ (mainRun args).1 ∧
    (args.load = false → MainAction.createProgrammer ∉ (mainRun args).1) := by
  have hok : mkBaseSoC (argsToSoC args) = Except.ok (mkSoCOk (argsToSoC args)) :=
    mkBaseSoC_ok _ rfl hs
  refine ⟨?_, ?_, ?_⟩
  · simp [mainRun, ha, hok, hf]
  · simp only [mainRun, ha, hok, hf]
    cases hb2 : args.build <;> cases hl : args.load <;> simp [hb2, hl]
  · intro hl
    simp only [mainRun, ha, hok, hf]
    cases hb2 : args.build <;> simp [hb2, hl]

/-- C9 witness: with only `--flash` set, the error is raised and neither the
flash action nor any programmer creation appears in the trace. -/
theorem flash_amended_witness :
    (mainRun { flash := true }).2 = some (MainError.notImplementedError flashMsg) ∧
    MainAction.flashBitstream ∉ (mainRun { flash := true }).1 ∧
    MainAction.createProgrammer ∉ (mainRun { flash := true }).1 := by
  have h := flash_amended { flash := true } rfl rfl rfl
  exact ⟨h.1, h.2.1, h.2.2 rfl⟩
